import Mathlib

/-!
Verification of the ISPC runtime (ispcrt) C boundary layer, `src/ispcrt/ispcrt.cpp`,
as a shallow embedding in Lean 4.

The file embeds the boundary dispatch layer: the global error-callback state,
the exception-to-error-code translation performed by the `ISPCRT_CATCH_BEGIN` /
`ISPCRT_CATCH_END` macros, and the individual API entry points. Backend
behaviour (device constructors, queue methods, memory-view factories) is
excluded in the source (abstract virtual interfaces implemented per backend),
so each boundary function is parametrised by the outcome of the backend calls
it makes; theorems quantify over those outcomes. Parts of the repository that
the source file calls but that are not present (the `detail/` headers: the
RefCounted base, the error-code enum beyond the two codes named in the source,
the Context attribute accessors) are modelled from the spec and marked as such.

C++ execution is modelled three-valued: a call either returns a value, throws
a C++ exception (caught by the boundary macros), or runs into undefined
behaviour such as a null-pointer dereference (a native fault, which no
`catch` clause can intercept).
-/

namespace ISPCRT

/-- Error codes crossing the boundary. The source file names
`ISPCRT_INVALID_OPERATION` and `ISPCRT_UNKNOWN_ERROR` explicitly.
Modelled from the spec: the remaining members of the fixed code set
("a small fixed set of internal-failure codes"), carried by
`ispcrt_runtime_error`; their exact roster does not affect any theorem. -/
inductive ISPCRTError where
  | noError
  | unknownError
  | deviceLost
  | outOfMemory
  | invalidArgument
  | invalidOperation
  deriving DecidableEq, Repr

/-- C++ exceptions as they are discriminated by the catch chain of
`ISPCRT_CATCH_END` (ispcrt.cpp lines 42-79): `ispcrt::base::ispcrt_runtime_error`
carries its own `ISPCRTError` code and a message; `std::logic_error` and other
`std::exception`s carry a message; anything else is caught by `catch (...)`.
`std::runtime_error` (thrown with `throw std::runtime_error(msg)` throughout
the file) derives from `std::exception` but NOT from `std::logic_error`, so it
is represented by `stdException`. -/
inductive Exc where
  | ispcrtRuntimeError (e : ISPCRTError) (msg : String)
  | logicError (msg : String)
  | stdException (msg : String)
  | unrecognized
  deriving DecidableEq, Repr

/-- The classification performed by the catch chain: each handler maps the
caught exception to the `(code, message)` pair passed to `handleError`. -/
def classifyExc : Exc → ISPCRTError × String
  | .ispcrtRuntimeError e msg => (e, msg)
  | .logicError msg => (.invalidOperation, msg)
  | .stdException msg => (.unknownError, msg)
  | .unrecognized => (.unknownError, "an unrecognized exception was caught")

/-- The registered error callback, `ISPCRTErrorFunc`: either the default
handler installed at process start (`defaultErrorFcn`, ispcrt.cpp lines 23-26,
which prints the message and terminates the process) or a caller-registered
function, identified abstractly. A null function pointer is `Option.none` at
use sites. -/
inductive ErrorFcn where
  | defaultErrorFcn
  | customFcn (id : Nat)
  deriving DecidableEq, Repr

/-- One observable invocation of an error callback: the default handler prints
and terminates; a custom handler is invoked with the code and message. -/
inductive CallbackAction where
  | printAndTerminate (e : ISPCRTError) (msg : String)
  | custom (id : Nat) (e : ISPCRTError) (msg : String)
  deriving DecidableEq, Repr

/-- What invoking a given callback with a code and message does. -/
def runErrorFcn : ErrorFcn → ISPCRTError → String → CallbackAction
  | .defaultErrorFcn, e, msg => .printAndTerminate e msg
  | .customFcn id, e, msg => .custom id e msg

/-- The error code an action delivered. -/
def CallbackAction.code : CallbackAction → ISPCRTError
  | .printAndTerminate e _ => e
  | .custom _ e _ => e

/-- The initial value of the global `g_errorFcn` (ispcrt.cpp line 28): the
default handler is installed at process start. -/
def gErrorFcnInit : Option ErrorFcn := some .defaultErrorFcn

/-- `handleError` (ispcrt.cpp lines 32-35): invokes the registered callback if
one is registered, otherwise does nothing. The result is the list of callback
invocations performed (empty or a singleton). -/
def handleError (fcn : Option ErrorFcn) (e : ISPCRTError) (msg : String) :
    List CallbackAction :=
  match fcn with
  | some f => [runErrorFcn f e msg]
  | none => []

/-- `ispcrtSetErrorFunc` (ispcrt.cpp line 87): unconditionally replaces the
registered callback, whatever was registered before. -/
def ispcrtSetErrorFunc (fcn : Option ErrorFcn) (_prev : Option ErrorFcn) :
    Option ErrorFcn :=
  fcn

/-- Outcome of executing a C++ call: normal return, a thrown C++ exception,
or undefined behaviour (e.g. dereferencing a null handle) which no catch
clause intercepts. -/
inductive CppOutcome (α : Type) where
  | ok (a : α)
  | thrown (e : Exc)
  | nativeFault
  deriving DecidableEq, Repr

/-- Result of one boundary API call as seen by the caller: either the call
returns a value having performed a (possibly empty) list of error-callback
invocations, or a native fault escapes to the caller. -/
inductive BoundaryResult (α : Type) where
  | returns (a : α) (calls : List CallbackAction)
  | fault
  deriving DecidableEq, Repr

/-- The error codes delivered through the callback during a boundary call. -/
def BoundaryResult.codes : BoundaryResult α → List ISPCRTError
  | .returns _ calls => calls.map CallbackAction.code
  | .fault => []

/-- The `ISPCRT_CATCH_BEGIN` / `ISPCRT_CATCH_END(a)` wrapper (ispcrt.cpp lines
42-79): runs the body; on normal return passes the value through; on any
thrown exception classifies it, calls `handleError` once with the resulting
code and message, and returns the sentinel `a`; a native fault inside the body
escapes (no catch clause sees it). `ISPCRT_CATCH_END_NO_RETURN()` is the same
with the function's pre-state as sentinel. -/
def ispcrtCatchEnd (fcn : Option ErrorFcn) (a : α) (body : CppOutcome α) :
    BoundaryResult α :=
  match body with
  | .ok v => .returns v []
  | .thrown e => .returns a (handleError fcn (classifyExc e).1 (classifyExc e).2)
  | .nativeFault => .fault

/-! ## Devices and contexts -/

/-- `ISPCRTDeviceType` as switched on by the source: AUTO, GPU, CPU, and any
other (non-enumerator) value, which every switch maps to its `default:` branch. -/
inductive DeviceType where
  | auto
  | gpu
  | cpu
  | unknownType
  deriving DecidableEq, Repr

/-- The backend a constructed device belongs to (`ispcrt::CPUDevice` or
`ispcrt::GPUDevice`), plus an abstract identity for distinguishing instances. -/
structure Device where
  backend : DeviceType
  ident : Nat
  deriving DecidableEq, Repr

/-- `ISPCRTDeviceInfo` as written through the `info` out-parameter of
`ispcrtGetDeviceInfo`. Modelled from the spec: the struct's fields live in the
header, which is absent; only whether and what value is written matters here. -/
structure DeviceInfo where
  vendorId : Nat
  deviceId : Nat
  deriving DecidableEq, Repr

/-- `ispcrt::base::Context` as used by the boundary layer. Modelled from the
spec: "Holds the backend kind it is bound to and a native context handle";
`getDeviceType()` and `contextNativeHandle()` are pure attribute reads. -/
structure Context where
  deviceType : DeviceType
  nativeHandle : Option Nat
  deriving DecidableEq, Repr

/-- Which backends were compiled in (`ISPCRT_BUILD_CPU` / `ISPCRT_BUILD_GPU`
preprocessor definitions). -/
structure BuildConfig where
  buildCPU : Bool
  buildGPU : Bool
  deriving DecidableEq, Repr

/-- The outcomes of the backend constructor and query calls the device
entry points make. The boundary functions are parametrised by one of these,
so theorems quantify over every possible backend behaviour.
`gpuDeviceDefault` is `new ispcrt::GPUDevice` (the AUTO path);
`gpuDeviceWith nativeContext d deviceIdx` is
`new ispcrt::GPUDevice(nativeContext, d, deviceIdx)`;
`cpuDevice` is `new ispcrt::CPUDevice`. -/
structure DeviceBackend where
  gpuDeviceDefault : CppOutcome Device
  gpuDeviceWith : Option Nat → Option Nat → Nat → CppOutcome Device
  cpuDevice : CppOutcome Device
  gpuDeviceCount : CppOutcome Nat
  cpuDeviceCount : CppOutcome Nat
  gpuDeviceInfo : Nat → CppOutcome DeviceInfo
  cpuDeviceInfo : Nat → CppOutcome DeviceInfo

/-- Monadic bind on `CppOutcome`: sequencing of C++ calls (an exception or a
native fault in the first call prevents the second). -/
def CppOutcome.bind : CppOutcome α → (α → CppOutcome β) → CppOutcome β
  | .ok a, f => f a
  | .thrown e, _ => .thrown e
  | .nativeFault, _ => .nativeFault

/-- The body of `getISPCRTDevice` (ispcrt.cpp lines 114-158), inside the catch
wrapper. With both backends compiled in, the AUTO case tries
`new ispcrt::GPUDevice` inside a local `try { } catch (...)`; on any C++
exception it falls back to `new ispcrt::CPUDevice` (a native fault is not an
exception and escapes). With one backend compiled in, AUTO uses it
unconditionally; with neither compiled in there is no preprocessor branch and
the function returns the null `device` pointer. Explicit GPU/CPU requests
construct that backend or throw `std::runtime_error` when it is not compiled
in; an unknown type throws `std::runtime_error`. -/
def getISPCRTDeviceBody (impl : DeviceBackend) (cfg : BuildConfig)
    (ty : DeviceType) (context : Option Context) (d : Option Nat)
    (deviceIdx : Nat) : CppOutcome (Option Device) :=
  let nativeContext : Option Nat := match context with
    | some c => c.nativeHandle
    | none => none
  match ty with
  | .auto =>
      if cfg.buildGPU && cfg.buildCPU then
        match impl.gpuDeviceDefault with
        | .ok dev => .ok (some dev)
        | .thrown _ => impl.cpuDevice.bind (fun dev => .ok (some dev))
        | .nativeFault => .nativeFault
      else if cfg.buildCPU then
        impl.cpuDevice.bind (fun dev => .ok (some dev))
      else if cfg.buildGPU then
        impl.gpuDeviceDefault.bind (fun dev => .ok (some dev))
      else
        .ok none
  | .gpu =>
      if cfg.buildGPU then
        (impl.gpuDeviceWith nativeContext d deviceIdx).bind (fun dev => .ok (some dev))
      else
        .thrown (.stdException "GPU support not enabled")
  | .cpu =>
      if cfg.buildCPU then
        impl.cpuDevice.bind (fun dev => .ok (some dev))
      else
        .thrown (.stdException "CPU support not enabled")
  | .unknownType => .thrown (.stdException "Unknown device type queried!")

/-- `getISPCRTDevice` (ispcrt.cpp lines 114-159): the body wrapped in
`ISPCRT_CATCH_BEGIN` / `ISPCRT_CATCH_END(0)`, whose failure sentinel is the
null device handle. -/
def getISPCRTDevice (impl : DeviceBackend) (cfg : BuildConfig)
    (fcn : Option ErrorFcn) (ty : DeviceType) (context : Option Context)
    (d : Option Nat) (deviceIdx : Nat) : BoundaryResult (Option Device) :=
  ispcrtCatchEnd fcn none (getISPCRTDeviceBody impl cfg ty context d deviceIdx)

/-- `ispcrtGetDevice` (ispcrt.cpp lines 161-163). -/
def ispcrtGetDevice (impl : DeviceBackend) (cfg : BuildConfig)
    (fcn : Option ErrorFcn) (ty : DeviceType) (deviceIdx : Nat) :
    BoundaryResult (Option Device) :=
  getISPCRTDevice impl cfg fcn ty none none deviceIdx

/-- `ispcrtGetDeviceFromContext` (ispcrt.cpp lines 165-168): resolves the
context handle (a null handle is dereferenced — undefined behaviour, modelled
as a native fault) and delegates to `getISPCRTDevice` with the context's own
device type. The handle resolution and `getDeviceType()` call happen outside
any catch wrapper. -/
def ispcrtGetDeviceFromContext (impl : DeviceBackend) (cfg : BuildConfig)
    (fcn : Option ErrorFcn) (context : Option Context) (deviceIdx : Nat) :
    BoundaryResult (Option Device) :=
  match context with
  | none => .fault
  | some c => getISPCRTDevice impl cfg fcn c.deviceType (some c) none deviceIdx

/-- The body of `ispcrtGetDeviceCount` (ispcrt.cpp lines 175-201): AUTO and
unknown types throw `std::runtime_error`; GPU/CPU query the backend when
compiled in and throw `std::runtime_error` otherwise. -/
def ispcrtGetDeviceCountBody (impl : DeviceBackend) (cfg : BuildConfig)
    (ty : DeviceType) : CppOutcome Nat :=
  match ty with
  | .auto => .thrown (.stdException "Device type must be specified")
  | .gpu =>
      if cfg.buildGPU then impl.gpuDeviceCount
      else .thrown (.stdException "GPU support not enabled")
  | .cpu =>
      if cfg.buildCPU then impl.cpuDeviceCount
      else .thrown (.stdException "CPU support not enabled")
  | .unknownType => .thrown (.stdException "Unknown device type queried!")

/-- `ispcrtGetDeviceCount` (ispcrt.cpp lines 175-202): sentinel 0. -/
def ispcrtGetDeviceCount (impl : DeviceBackend) (cfg : BuildConfig)
    (fcn : Option ErrorFcn) (ty : DeviceType) : BoundaryResult Nat :=
  ispcrtCatchEnd fcn 0 (ispcrtGetDeviceCountBody impl cfg ty)

/-- The body of `ispcrtGetDeviceInfo` (ispcrt.cpp lines 204-229): a null
`info` pointer throws; AUTO and unknown types throw `std::runtime_error`;
otherwise the backend's info is written through the pointer. The result is
`some v` when `*info = v` was executed and the write value, `none` when the
function exits without writing. `infoNull` records whether the caller passed
a null `info` pointer. -/
def ispcrtGetDeviceInfoBody (impl : DeviceBackend) (cfg : BuildConfig)
    (ty : DeviceType) (deviceIdx : Nat) (infoNull : Bool) :
    CppOutcome (Option DeviceInfo) :=
  if infoNull then .thrown (.stdException "info cannot be null!")
  else
    match ty with
    | .auto => .thrown (.stdException "Device type must be specified")
    | .gpu =>
        if cfg.buildGPU then (impl.gpuDeviceInfo deviceIdx).bind (fun i => .ok (some i))
        else .thrown (.stdException "GPU support not enabled")
    | .cpu =>
        if cfg.buildCPU then (impl.cpuDeviceInfo deviceIdx).bind (fun i => .ok (some i))
        else .thrown (.stdException "CPU support not enabled")
    | .unknownType => .thrown (.stdException "Unknown device type queried!")

/-- `ispcrtGetDeviceInfo` (ispcrt.cpp lines 204-230): a void function wrapped
in `ISPCRT_CATCH_END_NO_RETURN()`; on failure the out-parameter is left
unwritten (`none`). -/
def ispcrtGetDeviceInfo (impl : DeviceBackend) (cfg : BuildConfig)
    (fcn : Option ErrorFcn) (ty : DeviceType) (deviceIdx : Nat)
    (infoNull : Bool) : BoundaryResult (Option DeviceInfo) :=
  ispcrtCatchEnd fcn none (ispcrtGetDeviceInfoBody impl cfg ty deviceIdx infoNull)

/-! ## Reference counting -/

/-- The `ispcrt::RefCounted` base. Modelled from the spec (the `detail/`
header defining it is not present): "a mutable integer use-count, initialized
to 1 at creation"; `refInc` / `refDec` adjust it by exactly one and
`useCount` reads it. -/
structure RefCounted where
  count : Int
  deriving DecidableEq, Repr

/-- Modelled from the spec: creation initialises the use-count to 1. -/
def RefCounted.mk1 : RefCounted := ⟨1⟩

/-- Modelled from the spec: `refInc` increments the use-count by one. -/
def RefCounted.refInc (o : RefCounted) : RefCounted := ⟨o.count + 1⟩

/-- Modelled from the spec: `refDec` decrements the use-count by one
(destroying the object when it reaches zero; destruction is not observable
through the use-count itself). -/
def RefCounted.refDec (o : RefCounted) : RefCounted := ⟨o.count - 1⟩

/-- `ispcrtUseCount` (ispcrt.cpp lines 93-97): resolves the handle and returns
`obj.useCount()`; sentinel 0. A valid handle's read does not throw. -/
def ispcrtUseCount (fcn : Option ErrorFcn) (obj : RefCounted) :
    BoundaryResult Int :=
  ispcrtCatchEnd fcn 0 (.ok obj.count)

/-- `ispcrtRetain` (ispcrt.cpp lines 105-109): `obj.refInc()`; void, so the
result carries the object's new state. -/
def ispcrtRetain (fcn : Option ErrorFcn) (obj : RefCounted) :
    BoundaryResult RefCounted :=
  ispcrtCatchEnd fcn obj (.ok obj.refInc)

/-- `ispcrtRelease` (ispcrt.cpp lines 99-103): `obj.refDec()`. -/
def ispcrtRelease (fcn : Option ErrorFcn) (obj : RefCounted) :
    BoundaryResult RefCounted :=
  ispcrtCatchEnd fcn obj (.ok obj.refDec)

/-- The object state after a boundary call that returns one, with the
pre-state kept on a native fault. -/
def BoundaryResult.stateOr (r : BoundaryResult α) (pre : α) : α :=
  match r with
  | .returns a _ => a
  | .fault => pre

/-! ## Memory views -/

/-- `ISPCRTAllocationType`: UNKNOWN, DEVICE, SHARED (the enumerators the
source compares against and returns). -/
inductive AllocType where
  | unknownAlloc
  | deviceAlloc
  | sharedAlloc
  deriving DecidableEq, Repr

/-- `ISPCRTNewMemoryViewFlags` as read by the boundary layer: only its
`allocType` field is inspected. -/
structure NewMemoryViewFlags where
  allocType : AllocType
  deriving DecidableEq, Repr

/-- `ispcrt::base::MemoryView` as used by the boundary layer. Modelled from
the spec for the attributes ("host pointer (may be null if DEVICE-only),
device pointer, byte size, allocation-type", all fixed at creation and read
by pure accessors); pointers are abstract addresses, `none` being null. -/
structure MemoryView where
  hostPtr : Option Nat
  devicePtr : Option Nat
  numBytes : Nat
  isShared : Bool
  deriving DecidableEq, Repr

/-- `ispcrtNewMemoryView` (ispcrt.cpp lines 288-296): rejects any allocation
type other than SHARED or DEVICE with `throw std::runtime_error(...)` before
the backend factory is consulted; otherwise returns the backend's new view.
`mkView` is the outcome of `device.newMemoryView(appMemory, numBytes, flags)`,
a backend call the function is parametrised by; sentinel `nullptr`. -/
def ispcrtNewMemoryView (fcn : Option ErrorFcn)
    (mkView : CppOutcome MemoryView) (flags : NewMemoryViewFlags) :
    BoundaryResult (Option MemoryView) :=
  ispcrtCatchEnd fcn none
    (if flags.allocType ≠ .sharedAlloc ∧ flags.allocType ≠ .deviceAlloc then
      .thrown (.stdException "Unsupported memory allocation type requested!")
    else
      mkView.bind (fun v => .ok (some v)))

/-- `ispcrtNewMemoryViewForContext` (ispcrt.cpp lines 298-306): rejects any
allocation type other than SHARED before the backend factory is consulted.
`mkView` is the outcome of `context.newMemoryView(...)`; sentinel `nullptr`. -/
def ispcrtNewMemoryViewForContext (fcn : Option ErrorFcn)
    (mkView : CppOutcome MemoryView) (flags : NewMemoryViewFlags) :
    BoundaryResult (Option MemoryView) :=
  ispcrtCatchEnd fcn none
    (if flags.allocType ≠ .sharedAlloc then
      .thrown (.stdException "Only shared memory allocation is allowed for context!")
    else
      mkView.bind (fun v => .ok (some v)))

/-- `ispcrtHostPtr` (ispcrt.cpp lines 308-312): `mv.hostPtr()`; sentinel
`nullptr`. -/
def ispcrtHostPtr (fcn : Option ErrorFcn) (mv : MemoryView) :
    BoundaryResult (Option Nat) :=
  ispcrtCatchEnd fcn none (.ok mv.hostPtr)

/-- `ispcrtDevicePtr` (ispcrt.cpp lines 314-318): `mv.devicePtr()`; sentinel
`nullptr`. -/
def ispcrtDevicePtr (fcn : Option ErrorFcn) (mv : MemoryView) :
    BoundaryResult (Option Nat) :=
  ispcrtCatchEnd fcn none (.ok mv.devicePtr)

/-- `ispcrtSharedPtr` (ispcrt.cpp lines 339-343): its body reads
`mv.devicePtr()` — the device-pointer accessor, not the host-pointer one;
sentinel `nullptr`. -/
def ispcrtSharedPtr (fcn : Option ErrorFcn) (mv : MemoryView) :
    BoundaryResult (Option Nat) :=
  ispcrtCatchEnd fcn none (.ok mv.devicePtr)

/-- `ispcrtSize` (ispcrt.cpp lines 320-324): `mv.numBytes()`; sentinel 0. -/
def ispcrtSize (fcn : Option ErrorFcn) (mv : MemoryView) :
    BoundaryResult Nat :=
  ispcrtCatchEnd fcn 0 (.ok mv.numBytes)

/-! ## Task queues, launches, futures -/

/-- `ispcrt::base::Kernel` as used by the boundary layer: an opaque object,
identified abstractly (the spec: "Stateless beyond its identity"). -/
structure Kernel where
  ident : Nat
  deriving DecidableEq, Repr

/-- A command in a task queue's stream. Modelled from the spec: "an ordered
command stream ... accepting: copy-to-device, copy-to-host,
copy-between-views, kernel launch (1D/2D/3D grid), and barrier commands". -/
inductive Command where
  | copyToDevice (mv : MemoryView)
  | copyToHost (mv : MemoryView)
  | copyMemoryView (dst src : MemoryView) (size : Nat)
  | launch (k : Kernel) (params : Option MemoryView) (d0 d1 d2 : Nat)
  | barrier
  deriving DecidableEq, Repr

/-- The observable state of one `ispcrt::base::TaskQueue`: its command
stream, in submission order. Modelled from the spec ("Commands are appended
in submission order"); the backend queue classes are not present. -/
structure TaskQueueState where
  commands : List Command
  deriving DecidableEq, Repr

/-- `ispcrt::base::Future` as used by the boundary layer: a validity flag and
an execution time in nanoseconds (`uint64_t`), read by `valid()` and
`time()`. -/
structure Future where
  valid : Bool
  time : Nat
  deriving DecidableEq, Repr

/-- `ispcrtCopyMemoryView` (ispcrt.cpp lines 413-425): checks
`size > viewDst.numBytes()` and then `size > viewSrc.numBytes()`, throwing
`std::runtime_error` on either, before the backend call
`queue.copyMemoryView(viewDst, viewSrc, size)` — whose outcome, given the
queue's state, is the parameter `copyImpl`. Void function
(`ISPCRT_CATCH_END_NO_RETURN()`): on failure the queue state is unchanged. -/
def ispcrtCopyMemoryView (fcn : Option ErrorFcn)
    (copyImpl : MemoryView → MemoryView → Nat → TaskQueueState →
      CppOutcome TaskQueueState)
    (q : TaskQueueState) (dst src : MemoryView) (size : Nat) :
    BoundaryResult TaskQueueState :=
  ispcrtCatchEnd fcn q
    (if size > dst.numBytes then
      .thrown (.stdException "Requested copy size is bigger than destination buffer size!")
    else if size > src.numBytes then
      .thrown (.stdException "Requested copy size is bigger than source buffer size!")
    else copyImpl dst src size q)

/-- The backend enqueue `queue.copyMemoryView(dst, src, size)`. Modelled from
the spec: appends one copy command to the queue's ordered stream. Used to
instantiate `copyImpl` in witnesses; the theorems quantify over every
implementation. -/
def queueCopyMemoryView (dst src : MemoryView) (size : Nat)
    (q : TaskQueueState) : CppOutcome TaskQueueState :=
  .ok ⟨q.commands ++ [.copyMemoryView dst src size]⟩

/-- `ispcrtLaunch3D` (ispcrt.cpp lines 438-450): resolves queue and kernel, a
null params handle becomes a null `params` pointer (`if (p) params = ...`),
and calls `queue.launch(kernel, params, dim0, dim1, dim2)` — whose outcome
(new queue state and the future it returns) is the parameter `launchImpl`.
Sentinel: null future, queue unchanged. -/
def ispcrtLaunch3D (fcn : Option ErrorFcn)
    (launchImpl : Kernel → Option MemoryView → Nat → Nat → Nat →
      TaskQueueState → CppOutcome (TaskQueueState × Future))
    (q : TaskQueueState) (k : Kernel) (p : Option MemoryView)
    (d0 d1 d2 : Nat) : BoundaryResult (TaskQueueState × Option Future) :=
  ispcrtCatchEnd fcn (q, none)
    ((launchImpl k p d0 d1 d2 q).bind (fun r => .ok (r.1, some r.2)))

/-- `ispcrtLaunch1D` (ispcrt.cpp lines 427-430): its body is exactly
`return ispcrtLaunch3D(q, k, p, dim0, 1, 1);`. Its own catch wrapper is dead
code: the inner call is itself a boundary call that catches every exception,
so the delegation is the whole observable behaviour. -/
def ispcrtLaunch1D (fcn : Option ErrorFcn)
    (launchImpl : Kernel → Option MemoryView → Nat → Nat → Nat →
      TaskQueueState → CppOutcome (TaskQueueState × Future))
    (q : TaskQueueState) (k : Kernel) (p : Option MemoryView) (d0 : Nat) :
    BoundaryResult (TaskQueueState × Option Future) :=
  ispcrtLaunch3D fcn launchImpl q k p d0 1 1

/-- `ispcrtLaunch2D` (ispcrt.cpp lines 432-436): its body is exactly
`return ispcrtLaunch3D(q, k, p, dim0, dim1, 1);`, with a dead catch wrapper
as in `ispcrtLaunch1D`. -/
def ispcrtLaunch2D (fcn : Option ErrorFcn)
    (launchImpl : Kernel → Option MemoryView → Nat → Nat → Nat →
      TaskQueueState → CppOutcome (TaskQueueState × Future))
    (q : TaskQueueState) (k : Kernel) (p : Option MemoryView) (d0 d1 : Nat) :
    BoundaryResult (TaskQueueState × Option Future) :=
  ispcrtLaunch3D fcn launchImpl q k p d0 d1 1

/-- The backend `queue.launch(...)`. Modelled from the spec: appends one
launch command and returns a not-yet-valid future. Used to instantiate
`launchImpl` in witnesses. -/
def queueLaunch (k : Kernel) (p : Option MemoryView) (d0 d1 d2 : Nat)
    (q : TaskQueueState) : CppOutcome (TaskQueueState × Future) :=
  .ok (⟨q.commands ++ [.launch k p d0 d1 d2]⟩, ⟨false, 0⟩)

/-- The value of `(uint64_t)(-1)`, the "time not available" sentinel returned
by `ispcrtFutureGetTimeNs` (its return type is `uint64_t`). -/
def timeNotAvailable : Nat := 2 ^ 64 - 1

/-- `ispcrtFutureGetTimeNs` (ispcrt.cpp lines 458-469): a null handle returns
`-1` (inside the try block, before any dereference); a non-null handle whose
future is not valid returns `-1`; otherwise `future.time()` reduced modulo
2^64 (the `uint64_t` return). Sentinel `-1`. -/
def ispcrtFutureGetTimeNs (fcn : Option ErrorFcn) (f : Option Future) :
    BoundaryResult Nat :=
  ispcrtCatchEnd fcn timeNotAvailable
    (match f with
    | none => .ok timeNotAvailable
    | some fut =>
        if fut.valid then .ok (fut.time % 2 ^ 64) else .ok timeNotAvailable)

/-- `ispcrtFutureIsValid` (ispcrt.cpp lines 471-475): resolves the handle with
`referenceFromHandle` WITHOUT a null check — dereferencing a null handle is
undefined behaviour (a native fault no catch clause intercepts), unlike
`ispcrtFutureGetTimeNs`, which tests the handle first. On a valid handle it
returns `future.valid()`; sentinel `false`. -/
def ispcrtFutureIsValid (fcn : Option ErrorFcn) (f : Option Future) :
    BoundaryResult Bool :=
  match f with
  | none => .fault
  | some fut => ispcrtCatchEnd fcn false (.ok fut.valid)

/-! ## Sample objects used by witnesses -/

/-- Both backends compiled in. -/
def cfgBoth : BuildConfig := ⟨true, true⟩

/-- A CPU-backend device instance. -/
def sampleDevice : Device := ⟨.cpu, 0⟩

/-- A shared memory view of 16 bytes with distinct host and device
addresses. -/
def sampleView : MemoryView := ⟨some 1, some 2, 16, true⟩

/-- A backend whose calls all succeed. -/
def sampleBackend : DeviceBackend :=
  ⟨.ok ⟨.gpu, 1⟩, fun _ _ _ => .ok ⟨.gpu, 1⟩, .ok sampleDevice,
   .ok 1, .ok 1, fun _ => .ok ⟨0, 0⟩, fun _ => .ok ⟨0, 0⟩⟩

/-- A backend whose default GPU device constructor throws (no hardware). -/
def gpuFailBackend : DeviceBackend :=
  { sampleBackend with gpuDeviceDefault := .thrown .unrecognized }

/-- A backend whose CPU device constructor throws. -/
def cpuFailBackend : DeviceBackend :=
  { sampleBackend with cpuDevice := .thrown (.stdException "boom") }

/-! ## Claim theorems -/

/-- C1: when an internal failure (a thrown C++ exception) is raised during a
boundary call, the catch wrapper every boundary operation is built from does
not propagate a native fault: it returns the operation's documented failure
sentinel and invokes the currently registered error callback exactly once,
with the classified error code and message. Instantiated for
`ispcrtGetDeviceFromContext` with a failing device constructor: the call
returns the null-handle sentinel with a single callback invocation. -/
theorem boundary_failure_sentinel_single_report (α : Type) (a : α)
    (f : ErrorFcn) (e : Exc) (impl : DeviceBackend) (c : Context) (idx : Nat)
    (hc : c.deviceType = .cpu) (himpl : impl.cpuDevice = .thrown e) :
    ispcrtCatchEnd (some f) a (.thrown e) =
      .returns a [runErrorFcn f (classifyExc e).1 (classifyExc e).2] ∧
    ispcrtGetDeviceFromContext impl cfgBoth (some f) (some c) idx =
      .returns none [runErrorFcn f (classifyExc e).1 (classifyExc e).2] := by
  constructor
  · rfl
  · simp [ispcrtGetDeviceFromContext, getISPCRTDevice, getISPCRTDeviceBody,
      hc, himpl, cfgBoth, ispcrtCatchEnd, CppOutcome.bind, handleError]

/-- Witness for C1 at a concrete failing backend. -/
theorem boundary_failure_sentinel_single_report_witness :
    ispcrtCatchEnd (some .defaultErrorFcn) (0 : Nat)
        (.thrown (.stdException "boom")) =
      .returns 0 [.printAndTerminate .unknownError "boom"] ∧
    ispcrtGetDeviceFromContext cpuFailBackend cfgBoth (some .defaultErrorFcn)
        (some ⟨.cpu, none⟩) 0 =
      .returns none [.printAndTerminate .unknownError "boom"] :=
  boundary_failure_sentinel_single_report Nat 0 .defaultErrorFcn
    (.stdException "boom") cpuFailBackend ⟨.cpu, none⟩ 0 rfl rfl

/-- C2 counterexample: copying 8 bytes between a 4-byte destination and a
16-byte source fails, but the error code delivered through the callback is
the unknown-error code, not the invalid-operation code the claim requires:
the guard throws `std::runtime_error`, which the catch chain classifies as
`ISPCRT_UNKNOWN_ERROR` (it is not a `std::logic_error`). -/
theorem copyMemoryView_oversize_code_cex :
    (ispcrtCopyMemoryView (some .defaultErrorFcn) queueCopyMemoryView ⟨[]⟩
        ⟨some 1, some 2, 4, true⟩ sampleView 8).codes = [.unknownError] ∧
    ISPCRTError.unknownError ≠ ISPCRTError.invalidOperation := by
  constructor
  · rfl
  · decide

/-- C2 (amended): for every task queue, every backend enqueue implementation,
and memory views `dst`, `src`, a copy whose `size` exceeds either view's byte
size fails synchronously before any enqueue — the queue state is returned
unchanged whatever the backend implementation would do — with exactly one
error-callback invocation carrying the unknown-error code (the generic
classification of the thrown `std::runtime_error`) and the guard's message. -/
theorem copyMemoryView_oversize_no_enqueue (f : ErrorFcn)
    (copyImpl : MemoryView → MemoryView → Nat → TaskQueueState →
      CppOutcome TaskQueueState)
    (q : TaskQueueState) (dst src : MemoryView) (size : Nat)
    (h : size > dst.numBytes ∨ size > src.numBytes) :
    ispcrtCopyMemoryView (some f) copyImpl q dst src size =
      .returns q [runErrorFcn f .unknownError
        (if size > dst.numBytes then
          "Requested copy size is bigger than destination buffer size!"
        else
          "Requested copy size is bigger than source buffer size!")] := by
  unfold ispcrtCopyMemoryView
  by_cases hd : size > dst.numBytes
  · rw [if_pos hd, if_pos hd]
    rfl
  · rcases h with h | h
    · exact absurd h hd
    · rw [if_neg hd, if_pos h, if_neg hd]
      rfl

/-- Witness for the amended C2 at a concrete oversize copy. -/
theorem copyMemoryView_oversize_no_enqueue_witness :
    ispcrtCopyMemoryView (some .defaultErrorFcn) queueCopyMemoryView ⟨[]⟩
        ⟨some 1, some 2, 4, true⟩ sampleView 8 =
      .returns ⟨[]⟩ [.printAndTerminate .unknownError
        "Requested copy size is bigger than destination buffer size!"] :=
  copyMemoryView_oversize_no_enqueue .defaultErrorFcn queueCopyMemoryView
    ⟨[]⟩ ⟨some 1, some 2, 4, true⟩ sampleView 8 (Or.inl (by decide))

/-- C3: with both backends compiled in, an AUTO device request whose GPU
constructor throws falls back to constructing a CPU device, returns it, and
surfaces no error through the callback (empty invocation list); the returned
device is the CPU-backend instance. -/
theorem auto_device_silent_cpu_fallback (impl : DeviceBackend) (f : ErrorFcn)
    (e : Exc) (d : Device) (idx : Nat)
    (hg : impl.gpuDeviceDefault = .thrown e) (hc : impl.cpuDevice = .ok d)
    (hd : d.backend = .cpu) :
    ispcrtGetDevice impl cfgBoth (some f) .auto idx = .returns (some d) [] ∧
    d.backend = .cpu := by
  refine ⟨?_, hd⟩
  simp [ispcrtGetDevice, getISPCRTDevice, getISPCRTDeviceBody, cfgBoth,
    hg, hc, ispcrtCatchEnd, CppOutcome.bind]

/-- Witness for C3 at a concrete backend whose GPU constructor throws. -/
theorem auto_device_silent_cpu_fallback_witness :
    ispcrtGetDevice gpuFailBackend cfgBoth (some .defaultErrorFcn) .auto 0 =
      .returns (some sampleDevice) [] ∧
    sampleDevice.backend = .cpu :=
  auto_device_silent_cpu_fallback gpuFailBackend .defaultErrorFcn
    .unrecognized sampleDevice 0 rfl rfl rfl

/-- C4 counterexample: `ispcrtGetDeviceCount` with AUTO fails, but the error
code delivered through the callback is the unknown-error code, not the
invalid-operation code the claim requires: `throw std::runtime_error("Device
type must be specified")` is classified as `ISPCRT_UNKNOWN_ERROR` by the
catch chain, not `ISPCRT_INVALID_OPERATION`. -/
theorem deviceCount_auto_code_cex :
    (ispcrtGetDeviceCount sampleBackend cfgBoth (some .defaultErrorFcn)
        .auto).codes = [.unknownError] ∧
    ISPCRTError.unknownError ≠ ISPCRTError.invalidOperation := by
  constructor
  · rfl
  · decide

/-- C4 (amended): for every backend implementation, build configuration and
device index, `ispcrtGetDeviceCount` and `ispcrtGetDeviceInfo` with AUTO
always fail — one callback invocation with the unknown-error code (the
generic classification of the thrown `std::runtime_error`) and the message
"Device type must be specified" — and return the failure sentinel: zero
count, and the info out-parameter is not written. -/
theorem deviceCount_deviceInfo_reject_auto (impl : DeviceBackend)
    (cfg : BuildConfig) (f : ErrorFcn) (idx : Nat) :
    ispcrtGetDeviceCount impl cfg (some f) .auto =
      .returns 0 [runErrorFcn f .unknownError "Device type must be specified"] ∧
    ispcrtGetDeviceInfo impl cfg (some f) .auto idx false =
      .returns none
        [runErrorFcn f .unknownError "Device type must be specified"] :=
  ⟨rfl, rfl⟩

/-- C5 counterexample: `ispcrtFutureIsValid` on a null Future handle
dereferences the null handle — a native fault escapes, the call does not
report `false`. -/
theorem futureIsValid_null_fault_cex :
    ispcrtFutureIsValid (some .defaultErrorFcn) none = .fault ∧
    (BoundaryResult.fault : BoundaryResult Bool) ≠ .returns false [] := by
  constructor
  · rfl
  · decide

/-- C5 (amended): `ispcrtFutureGetTimeNs` on a null handle, and on a handle
whose future is not valid, returns the `-1` (time-not-available) sentinel
with no fault and no callback invocation; `ispcrtFutureIsValid` on a non-null
handle whose future is not valid reports `false` with no fault and no
callback invocation; but `ispcrtFutureIsValid` on a null handle dereferences
the null handle (undefined behaviour) instead of reporting `false`. -/
theorem future_invalid_queries (fcn : Option ErrorFcn) (fut : Future)
    (h : fut.valid = false) :
    ispcrtFutureGetTimeNs fcn none = .returns timeNotAvailable [] ∧
    ispcrtFutureGetTimeNs fcn (some fut) = .returns timeNotAvailable [] ∧
    ispcrtFutureIsValid fcn (some fut) = .returns false [] ∧
    ispcrtFutureIsValid fcn none = .fault := by
  refine ⟨rfl, ?_, ?_, rfl⟩
  · simp [ispcrtFutureGetTimeNs, h, ispcrtCatchEnd]
  · simp [ispcrtFutureIsValid, h, ispcrtCatchEnd]

/-- Witness for the amended C5 at a concrete not-yet-valid future. -/
theorem future_invalid_queries_witness :
    ispcrtFutureGetTimeNs (some .defaultErrorFcn) none =
      .returns timeNotAvailable [] ∧
    ispcrtFutureGetTimeNs (some .defaultErrorFcn) (some ⟨false, 0⟩) =
      .returns timeNotAvailable [] ∧
    ispcrtFutureIsValid (some .defaultErrorFcn) (some ⟨false, 0⟩) =
      .returns false [] ∧
    ispcrtFutureIsValid (some .defaultErrorFcn) none = .fault :=
  future_invalid_queries (some .defaultErrorFcn) ⟨false, 0⟩ rfl

/-- C6: for every error-callback state, backend launch implementation, queue,
kernel, parameter view and dimensions, `ispcrtLaunch1D` is the same boundary
call as `ispcrtLaunch3D` with trailing dimensions 1, 1, and `ispcrtLaunch2D`
the same as `ispcrtLaunch3D` with trailing dimension 1: identical resulting
queue state, returned future, callback invocations and fault behaviour. -/
theorem launch_conveniences_delegate (fcn : Option ErrorFcn)
    (launchImpl : Kernel → Option MemoryView → Nat → Nat → Nat →
      TaskQueueState → CppOutcome (TaskQueueState × Future))
    (q : TaskQueueState) (k : Kernel) (p : Option MemoryView) (d0 d1 : Nat) :
    ispcrtLaunch1D fcn launchImpl q k p d0 =
      ispcrtLaunch3D fcn launchImpl q k p d0 1 1 ∧
    ispcrtLaunch2D fcn launchImpl q k p d0 d1 =
      ispcrtLaunch3D fcn launchImpl q k p d0 d1 1 :=
  ⟨rfl, rfl⟩

/-- C7: for every callback state and object, retain followed by release
leaves the value reported by `ispcrtUseCount` unchanged, and `ispcrtUseCount`
reports 1 on a freshly created object (use-count initialised to 1). -/
theorem retain_release_useCount (fcn : Option ErrorFcn) (obj : RefCounted) :
    ispcrtUseCount fcn
        ((ispcrtRelease fcn ((ispcrtRetain fcn obj).stateOr obj)).stateOr
          ((ispcrtRetain fcn obj).stateOr obj)) =
      ispcrtUseCount fcn obj ∧
    ispcrtUseCount fcn RefCounted.mk1 = .returns 1 [] := by
  constructor
  · have harith : obj.count + 1 - 1 = obj.count := by omega
    simp [ispcrtRetain, ispcrtRelease, ispcrtUseCount, ispcrtCatchEnd,
      BoundaryResult.stateOr, RefCounted.refInc, RefCounted.refDec, harith]
  · rfl

/-- C8: creating a memory view against a device with an allocation type that
is neither SHARED nor DEVICE, and creating one against a context with an
allocation type other than SHARED, both fail for every backend factory
outcome (the factory is never consulted): one error-callback invocation, null
handle returned, no view created. -/
theorem newMemoryView_rejects_alloc_types (f : ErrorFcn)
    (mkView mkView2 : CppOutcome MemoryView) (a1 a2 : AllocType)
    (h1 : a1 ≠ .sharedAlloc) (h2 : a1 ≠ .deviceAlloc)
    (h3 : a2 ≠ .sharedAlloc) :
    ispcrtNewMemoryView (some f) mkView ⟨a1⟩ =
      .returns none [runErrorFcn f .unknownError
        "Unsupported memory allocation type requested!"] ∧
    ispcrtNewMemoryViewForContext (some f) mkView2 ⟨a2⟩ =
      .returns none [runErrorFcn f .unknownError
        "Only shared memory allocation is allowed for context!"] := by
  constructor
  · rw [ispcrtNewMemoryView, if_pos ⟨h1, h2⟩]
    rfl
  · rw [ispcrtNewMemoryViewForContext, if_pos h3]
    rfl

/-- Witness for C8: UNKNOWN rejected by the device entry point, DEVICE
rejected by the context entry point. -/
theorem newMemoryView_rejects_alloc_types_witness :
    ispcrtNewMemoryView (some .defaultErrorFcn) (.ok sampleView)
        ⟨.unknownAlloc⟩ =
      .returns none [.printAndTerminate .unknownError
        "Unsupported memory allocation type requested!"] ∧
    ispcrtNewMemoryViewForContext (some .defaultErrorFcn) (.ok sampleView)
        ⟨.deviceAlloc⟩ =
      .returns none [.printAndTerminate .unknownError
        "Only shared memory allocation is allowed for context!"] :=
  newMemoryView_rejects_alloc_types .defaultErrorFcn (.ok sampleView)
    (.ok sampleView) .unknownAlloc .deviceAlloc
    (by decide) (by decide) (by decide)

/-- C9: the default handler, which prints and terminates, is the callback
registered at process start; `ispcrtSetErrorFunc` unconditionally replaces
whatever is registered; with a null callback registered, a failure invokes no
handler at all; and a failing call under a null callback still returns its
sentinel normally (here: zero device count, no invocation, no fault). -/
theorem error_callback_lifecycle (e : ISPCRTError) (msg : String)
    (f prev : Option ErrorFcn) (impl : DeviceBackend) (cfg : BuildConfig) :
    handleError gErrorFcnInit e msg = [.printAndTerminate e msg] ∧
    ispcrtSetErrorFunc f prev = f ∧
    handleError none e msg = [] ∧
    ispcrtGetDeviceCount impl cfg none .auto = .returns 0 [] :=
  ⟨rfl, rfl, rfl, rfl⟩

/-- C10: `ispcrtSharedPtr` returns exactly what `ispcrtDevicePtr` returns on
every memory-view handle and callback state — it reads `mv.devicePtr()` — and
it is not an alias of the host-pointer accessor: on a view whose host and
device addresses differ, it disagrees with `ispcrtHostPtr`. -/
theorem sharedPtr_aliases_devicePtr (fcn : Option ErrorFcn)
    (mv : MemoryView) :
    ispcrtSharedPtr fcn mv = ispcrtDevicePtr fcn mv ∧
    ispcrtSharedPtr (some .defaultErrorFcn) sampleView ≠
      ispcrtHostPtr (some .defaultErrorFcn) sampleView := by
  constructor
  · rfl
  · decide

end ISPCRT
